import Mathlib

/-!
# Verification of the vpn-manager connection orchestration core

A shallow embedding, in Lean 4, of the route calculus, connection manager,
subprocess output classifier, process-exit handler and health checker of the
`yllada/vpn-manager` repository (Go).  Pure Go functions become Lean
functions; stateful Go code becomes explicit state passing over record
types; OS side effects (process spawning, route-table writes, channel
closes, callback goroutines) are recorded as flags or event lists in the
returned values.  Machine integers that can never overflow in practice
(counters, octets) are modelled as `Nat`/`Int`.

Conventions used throughout:
* Go maps keyed by profile ID are modelled as association lists with the
  first-match lookup; Go `delete` removes the (unique) key, modelled as a
  filter on the key.
* Timestamps are abstract `Nat` instants supplied by the caller.
* IPv6 inputs (which necessarily contain a colon) are outside the modelled
  domain of the IP parsing functions; every input the specification talks
  about is IPv4 or malformed ASCII.
-/

set_option autoImplicit false

/-! ## String utilities (Go `strings` package fragment) -/

/-- `List.isPrefixOf`-based substring test on character lists: does `sub`
occur contiguously inside `s`?  Embeds Go `strings.Contains`. -/
def subListOf (sub : List Char) : List Char → Bool
  | [] => sub.isEmpty
  | c :: rest => sub.isPrefixOf (c :: rest) || subListOf sub rest

/-- Go `strings.Contains s pat`. -/
def strContains (s pat : String) : Bool :=
  subListOf pat.data s.data

/-- Go `unicode.IsSpace` restricted to the Latin-1 white space characters
(the inputs in scope contain no exotic Unicode spaces). -/
def goIsSpace (c : Char) : Bool :=
  c = ' ' || c = '\t' || c = '\n' || c = '\x0b' || c = '\x0c' || c = '\r' ||
  c = '\x85' || c = '\xa0'

/-- Go `strings.TrimSpace`: drop white space from both ends. -/
def goTrimSpace (s : String) : String :=
  String.mk (((s.data.dropWhile goIsSpace).reverse.dropWhile goIsSpace).reverse)

/-! ## Route calculus: the IPv4 fragment of Go `net.ParseIP` / `net.ParseCIDR` -/

/-- Split a character list into the fields between `.` separators,
keeping empty fields (as Go's dotted-quad scanner does). -/
def splitOnDot : List Char → List (List Char)
  | [] => [[]]
  | c :: rest =>
    if c = '.' then [] :: splitOnDot rest
    else
      match splitOnDot rest with
      | f :: fs => (c :: f) :: fs
      | [] => [[c]]

/-- Break at the first `/`, as Go `net.ParseCIDR` does: returns the part
before the slash and, when a slash exists, the part after it. -/
def breakAtSlash : List Char → List Char × Option (List Char)
  | [] => ([], none)
  | c :: rest =>
    if c = '/' then ([], some rest)
    else
      let (pre, post) := breakAtSlash rest
      (c :: pre, post)

/-- All characters are ASCII decimal digits. -/
def allDigits (cs : List Char) : Bool :=
  cs.all (fun c => c.isDigit)

/-- Decimal value of a digit list. -/
def digitsToNat (cs : List Char) : Nat :=
  cs.foldl (fun a c => a * 10 + (c.toNat - 48)) 0

/-- One dotted-quad field, per Go `netip.ParseAddr`: 1-3 decimal digits,
no leading zero, value at most 255. -/
def parseV4Field (cs : List Char) : Option Nat :=
  if cs.isEmpty then none
  else if !allDigits cs then none
  else if cs.length > 3 then none
  else if cs.length > 1 && cs.head? == some '0' then none
  else
    let v := digitsToNat cs
    if v ≤ 255 then some v else none

/-- The IPv4 dotted-quad parser: exactly four valid fields.  Embeds the
IPv4 path of Go `net.ParseIP` (the IPv6 path is outside the modelled
domain, see the file header). -/
def parseIPv4Chars (cs : List Char) : Option (Nat × Nat × Nat × Nat) :=
  match (splitOnDot cs).mapM parseV4Field with
  | some [a, b, c, d] => some (a, b, c, d)
  | _ => none

/-- `parseIPv4Chars` on a `String`. -/
def parseIPv4 (s : String) : Option (Nat × Nat × Nat × Nat) :=
  parseIPv4Chars s.data

/-- The CIDR prefix length, per Go's `dtoi` as used by `net.ParseCIDR`:
a non-empty all-digit string whose value is at most 32.  (Go's `dtoi`
saturates huge values far above 32, which `ParseCIDR` then rejects, so
rejecting by value is equivalent.) -/
def parsePrefixLen (cs : List Char) : Option Nat :=
  if cs.isEmpty then none
  else if !allDigits cs then none
  else
    let n := digitsToNat cs
    if n ≤ 32 then some n else none

/-- Octet `idx` (0 = most significant) of the 32-bit netmask with `ones`
leading one bits, per Go `net.CIDRMask`. -/
def maskOctet (ones idx : Nat) : Nat :=
  if 8 * (idx + 1) ≤ ones then 255
  else if ones ≤ 8 * idx then 0
  else 256 - 2 ^ (8 - (ones - 8 * idx))

/-- Bytewise AND of an address quad with the netmask of `ones` bits:
Go `IP.Mask(mask)`, which is how `net.ParseCIDR` produces the network
address implied by the mask. -/
def maskQuad (q : Nat × Nat × Nat × Nat) (ones : Nat) : Nat × Nat × Nat × Nat :=
  (q.1 &&& maskOctet ones 0, q.2.1 &&& maskOctet ones 1,
   q.2.2.1 &&& maskOctet ones 2, q.2.2.2 &&& maskOctet ones 3)

/-- Dotted-quad rendering, per Go `IP.String` for IPv4 and the
`fmt.Sprintf("%d.%d.%d.%d", ...)` used for netmasks. -/
def formatIPv4 (q : Nat × Nat × Nat × Nat) : String :=
  toString q.1 ++ "." ++ toString q.2.1 ++ "." ++ toString q.2.2.1 ++ "." ++
  toString q.2.2.2

/-- The quad whose octets are the netmask of `ones` bits. -/
def netmaskQuadOf (ones : Nat) : Nat × Nat × Nat × Nat :=
  (maskOctet ones 0, maskOctet ones 1, maskOctet ones 2, maskOctet ones 3)

/-- Go `net.ParseCIDR`, IPv4 fragment: on success returns the network
address (the given address ANDed with the mask) and the prefix length. -/
def goParseCIDR (s : String) : Option ((Nat × Nat × Nat × Nat) × Nat) :=
  match breakAtSlash s.data with
  | (_, none) => none
  | (addr, some m) =>
    match parseIPv4Chars addr, parsePrefixLen m with
    | some q, some n => some (maskQuad q n, n)
    | _, _ => none

/-- Embeds `normalizeNetworkRoute` (manager source): trim; empty input or
parse failure yields `""`; CIDR input is rewritten to the network address
implied by the mask with its prefix length; a bare IP gains `/32`. -/
def normalizeNetworkRoute (route : String) : String :=
  let route := goTrimSpace route
  if route = "" then ""
  else if strContains route "/" then
    match goParseCIDR route with
    | none => ""
    | some (q, ones) => formatIPv4 q ++ "/" ++ toString ones
  else
    match parseIPv4 route with
    | some _ => route ++ "/32"
    | none => ""

/-- Embeds `parseRouteForOpenVPN` (manager source): trim; empty input or
parse failure yields `("", "")`; CIDR input yields the network address and
the dotted-decimal netmask; a bare IP yields itself with mask
`255.255.255.255`. -/
def parseRouteForOpenVPN (route : String) : String × String :=
  let route := goTrimSpace route
  if route = "" then ("", "")
  else if strContains route "/" then
    match goParseCIDR route with
    | none => ("", "")
    | some (q, ones) => (formatIPv4 q, formatIPv4 (netmaskQuadOf ones))
  else
    match parseIPv4 route with
    | some _ => (route, "255.255.255.255")
    | none => ("", "")

/-! ## Data model: profiles, connection status, connections -/

/-- The subset of the Go `Profile` struct the core reads during a
connection attempt.  Persistence-only fields (timestamps, auto-connect,
save-password, DNS flag) are omitted: the modelled code never reads them. -/
structure Profile where
  id : String
  name : String
  configPath : String
  username : String
  requiresOTP : Bool
  splitTunnelEnabled : Bool
  splitTunnelMode : String
  splitTunnelRoutes : List String
  deriving DecidableEq

/-- Go `ConnectionStatus` enum. -/
inductive ConnectionStatus where
  | disconnected
  | connecting
  | connected
  | disconnecting
  | error
  deriving DecidableEq

/-- The mutable state of a Go `Connection`.  `hasAuthFailedCallback`
models `onAuthFailed != nil`; `stopChanClosed` models the closed stop
channel.  Start time, byte counters and the assigned IP are best-effort
display fields never read by the modelled control flow and are omitted. -/
structure Connection where
  profile : Profile
  status : ConnectionStatus
  lastError : String
  authFailedCalled : Bool
  stopChanClosed : Bool
  hasAuthFailedCallback : Bool
  deriving DecidableEq

/-! ## Classic-mode argument construction (`Manager.runConnection`) -/

/-- The classic-OpenVPN argument list built by `runConnection` (the branch
taken when no `openvpn3` binary exists): base flags, then — when
include-mode split tunneling is active — `--route-nopull`, the
pull-filter that ignores the pushed `redirect-gateway`, and one
`--route network netmask` pair per parsable configured route. -/
def buildClassicOpenVPNArgs (credFile : String) (p : Profile) : List String :=
  let args := ["--config", p.configPath, "--auth-user-pass", credFile, "--verb", "3"]
  if p.splitTunnelEnabled && p.splitTunnelMode == "include" then
    let args := args ++ ["--route-nopull"]
    let args := args ++ ["--pull-filter", "ignore", "redirect-gateway"]
    p.splitTunnelRoutes.foldl (fun acc route =>
      let route := goTrimSpace route
      if route == "" then acc
      else
        let nm := parseRouteForOpenVPN route
        if nm.1 ≠ "" then acc ++ ["--route", nm.1, nm.2] else acc) args
  else args

/-! ## Output monitor (`Manager.monitorOutput`)

The subprocess output stream is a list of lines processed in order.  Each
asynchronous invocation of the registered auth-failed callback is recorded
as one entry in an event list carrying the `needsOTP` argument it was
invoked with; the exclude-mode route application and the log-handler
forwarding are external effects with no `Connection` state change and are
not recorded. -/

/-- First marker scan of a line: `"Initialization Sequence Completed"`
transitions the connection to `connected`. -/
def stageEstablished (line : String) (s : Connection × List Bool) :
    Connection × List Bool :=
  if strContains line "Initialization Sequence Completed" then
    ({ s.1 with status := .connected }, s.2)
  else s

/-- Second marker scan: `"AUTH_FAILED"` sets `error` status and the
last-error text, latches `authFailedCalled`, and — when a callback is
registered, the latch was clear and the profile does not already require
OTP — invokes the callback once with `needsOTP = true`. -/
def stageAuthFailed (line : String) (s : Connection × List Bool) :
    Connection × List Bool :=
  if strContains line "AUTH_FAILED" then
    let c := s.1
    let needsOTP := !c.profile.requiresOTP
    let prev := c.authFailedCalled
    let c := { c with
      status := .error,
      lastError := "Authentication failed - verify username/password/OTP",
      authFailedCalled := true }
    if c.hasAuthFailedCallback && !prev && needsOTP then (c, s.2 ++ [true])
    else (c, s.2)
  else s

/-- Third marker scan: a dynamic challenge line (`"AUTH:CRV1"` or
`"CHALLENGE"`) latches `authFailedCalled` and goes through the same
one-shot callback gate, without touching the status. -/
def stageChallenge (line : String) (s : Connection × List Bool) :
    Connection × List Bool :=
  if strContains line "AUTH:CRV1" || strContains line "CHALLENGE" then
    let c := s.1
    let needsOTP := !c.profile.requiresOTP
    let prev := c.authFailedCalled
    let c := { c with authFailedCalled := true }
    if c.hasAuthFailedCallback && !prev && needsOTP then (c, s.2 ++ [true])
    else (c, s.2)
  else s

/-- Processing of one output line: the three marker scans in source
order.  (The `"Connection refused"`/`"SIGTERM"` scan only logs.) -/
def processOutputLine (c : Connection) (line : String) : Connection × List Bool :=
  stageChallenge line (stageAuthFailed line (stageEstablished line (c, [])))

/-- Embeds `monitorOutput`: fold the per-line processing over the output
stream, accumulating the callback-invocation events in order. -/
def monitorOutput (c : Connection) (lines : List String) : Connection × List Bool :=
  lines.foldl (fun s line =>
    let r := processOutputLine s.1 line
    (r.1, s.2 ++ r.2)) (c, [])

/-- A line that enters one of the two one-shot callback gates of the
classifier: an authentication-failure marker or a challenge marker. -/
def triggerLine (line : String) : Bool :=
  strContains line "AUTH_FAILED" || strContains line "AUTH:CRV1" ||
  strContains line "CHALLENGE"

/-! ## Process-exit handling (tail of `Manager.runConnection`) -/

/-- Embeds the block after `cmd.Wait()` returns: `exitErr` is the error
returned by `Wait` (`none` on a clean exit).  Only a connection still in
`connecting`/`connected` is touched: a failed exit records `error` plus
the exit error text, a clean exit records `disconnected`; any other
status is left as is. -/
def handleProcessExit (c : Connection) (exitErr : Option String) : Connection :=
  if c.status = .connecting ∨ c.status = .connected then
    match exitErr with
    | some e => { c with status := .error, lastError := e }
    | none => { c with status := .disconnected }
  else c

/-! ## Connection manager registry (`Manager.Connect` / `Manager.Disconnect`) -/

/-- The manager's error taxonomy for the modelled entry points. -/
inductive VpnError where
  | alreadyConnected
  | notConnected
  | profileNotFound
  deriving DecidableEq

/-- First-match lookup in an association list (Go map read). -/
def lookupAssoc {α : Type} : List (String × α) → String → Option α
  | [], _ => none
  | (k, v) :: rest, key => if k = key then some v else lookupAssoc rest key

/-- Go map assignment: replace the value under an existing key, else
append the binding. -/
def insertAssoc {α : Type} : List (String × α) → String → α → List (String × α)
  | [], key, v => [(key, v)]
  | (k, v') :: rest, key, v =>
    if k = key then (key, v) :: rest else (k, v') :: insertAssoc rest key v

/-- Go map `delete`: remove the bindings of a key (unique in a Go map). -/
def removeAssoc {α : Type} (l : List (String × α)) (key : String) :
    List (String × α) :=
  l.filter (fun kv => !(kv.1 = key : Bool))

/-- The manager's state: the profile store contents and the connection
registry keyed by profile ID. -/
structure ManagerState where
  profiles : List Profile
  connections : List (String × Connection)
  deriving DecidableEq

/-- Result of `Manager.Connect`: the new state, the returned error, and
whether a supervisory goroutine (`runConnection`, i.e. a subprocess) was
launched. -/
structure ConnectOutcome where
  state : ManagerState
  err : Option VpnError
  spawned : Bool
  deriving DecidableEq

/-- Result of `Manager.Disconnect`: the new state, the returned error,
and the final value of the removed `Connection` (the object the registry
pointed to, after `Disconnect` finished mutating it). -/
structure DisconnectOutcome where
  state : ManagerState
  err : Option VpnError
  final : Option Connection
  deriving DecidableEq

/-- Embeds `ProfileManager.Get`: first profile with the given ID. -/
def profileGet (profiles : List Profile) (id : String) : Option Profile :=
  profiles.find? (fun p => p.id == id)

/-- Embeds `Manager.Connect`.  An existing registry entry in
`connected`/`connecting` state short-circuits with `alreadyConnected`;
an unresolvable profile short-circuits with `profileNotFound`; otherwise
a fresh `connecting` entry replaces any stale one and the supervisory
goroutine is spawned.  (The username substitution and the `MarkUsed`
timestamp update touch only fields outside the model.) -/
def managerConnect (st : ManagerState) (profileID username password : String) :
    ConnectOutcome :=
  let stale : Bool :=
    match lookupAssoc st.connections profileID with
    | some conn => conn.status == .connected || conn.status == .connecting
    | none => false
  if stale then { state := st, err := some .alreadyConnected, spawned := false }
  else
    match profileGet st.profiles profileID with
    | none => { state := st, err := some .profileNotFound, spawned := false }
    | some profile =>
      let conn : Connection := {
        profile := profile
        status := .connecting
        lastError := ""
        authFailedCalled := false
        stopChanClosed := false
        hasAuthFailedCallback := false }
      { state := { st with connections := insertAssoc st.connections profileID conn }
        err := none
        spawned := true }

/-- Embeds `Manager.Disconnect`: unknown profile short-circuits with
`notConnected`; otherwise the connection is driven `disconnecting` →
stop-channel closed → (subprocess killed: external) → `disconnected`,
and its entry is deleted from the registry. -/
def managerDisconnect (st : ManagerState) (profileID : String) : DisconnectOutcome :=
  match lookupAssoc st.connections profileID with
  | none => { state := st, err := some .notConnected, final := none }
  | some conn =>
    let conn := { conn with status := .disconnecting }
    let conn := { conn with stopChanClosed := true }
    let conn := { conn with status := .disconnected }
    { state := { st with connections := removeAssoc st.connections profileID }
      err := none
      final := some conn }

/-- Embeds `Manager.GetConnection`. -/
def managerGetConnection (st : ManagerState) (profileID : String) : Option Connection :=
  lookupAssoc st.connections profileID

/-- Embeds `Manager.ListConnections`: the registry values as a fresh
slice. -/
def managerListConnections (st : ManagerState) : List Connection :=
  st.connections.map (fun kv => kv.2)
/-! ## Health checker (`vpn/health.go`) -/

/-- Go `HealthState` enum. -/
inductive HealthState where
  | unknown
  | healthy
  | degraded
  | unhealthy
  deriving DecidableEq

/-- Go `HealthConfig`.  Durations are abstract `Nat` amounts; the two Go
`int` fields keep `Int` so configured values below 1 behave exactly as in
the source. -/
structure HealthConfig where
  checkInterval : Nat
  failureThreshold : Int
  autoReconnect : Bool
  reconnectDelay : Nat
  maxReconnectAttempts : Int
  testHosts : List String
  deriving DecidableEq

/-- Go `ConnectionHealth`: the per-profile record maintained by the
checker.  `lastCheck`/`lastSuccess` are abstract instants; `latency` is
the probe's measured latency (0 after a failure). -/
structure ConnectionHealth where
  profileID : String
  state : HealthState
  lastCheck : Nat
  lastSuccess : Nat
  consecutiveFails : Int
  reconnectAttempts : Int
  latency : Nat
  deriving DecidableEq

/-- The `HealthChecker`'s lock-guarded state: the active config, the
running flag, and the health-record map keyed by profile ID. -/
structure HealthCheckerState where
  config : HealthConfig
  running : Bool
  connectionHealth : List (String × ConnectionHealth)
  deriving DecidableEq

/-- Result of one `checkConnection` call: the new checker state, whether
the health state changed (which fires the health-change callback), and
whether an auto-reconnect task was spawned. -/
structure HealthCheckOutcome where
  state : HealthCheckerState
  stateChanged : Bool
  reconnectTriggered : Bool
  deriving DecidableEq

/-- The Go zero-valued `ConnectionHealth` created lazily on the first
check of a profile (`State: HealthUnknown` is stated explicitly in the
source; the remaining fields are Go zero values). -/
def freshHealth (profileID : String) : ConnectionHealth :=
  { profileID := profileID
    state := .unknown
    lastCheck := 0
    lastSuccess := 0
    consecutiveFails := 0
    reconnectAttempts := 0
    latency := 0 }

/-- Embeds `HealthChecker.checkConnection` for one connected profile.
`probe` is the outcome of `testConnectivity`: `some latency` on success,
`none` when every test host was unreachable.  A failure increments the
consecutive-failure count and classifies `degraded` below the threshold
and `unhealthy` at or above it; a success resets both counters and
classifies `healthy`.  The reconnect task is spawned exactly when the
state changed to `unhealthy` with auto-reconnect enabled. -/
def healthCheckConnection (st : HealthCheckerState) (profileID : String)
    (now : Nat) (probe : Option Nat) : HealthCheckOutcome :=
  let h :=
    match lookupAssoc st.connectionHealth profileID with
    | some h => h
    | none => freshHealth profileID
  let oldState := h.state
  let h := { h with lastCheck := now }
  let h :=
    match probe with
    | none =>
      let fails : Int := h.consecutiveFails + 1
      { h with
        consecutiveFails := fails
        latency := 0
        state := if st.config.failureThreshold ≤ fails then .unhealthy else .degraded }
    | some lat =>
      { h with
        consecutiveFails := 0
        lastSuccess := now
        latency := lat
        state := .healthy
        reconnectAttempts := 0 }
  let changed := oldState != h.state
  { state := { st with connectionHealth := insertAssoc st.connectionHealth profileID h }
    stateChanged := changed
    reconnectTriggered := changed && h.state == .unhealthy && st.config.autoReconnect }

/-- Embeds `HealthChecker.GetHealth`.  The Go function returns
`&healthCopy`, a pointer to a fresh value copy of the stored record; in
this pure embedding the returned record is that copy. -/
def getHealth (st : HealthCheckerState) (profileID : String) : Option ConnectionHealth :=
  match lookupAssoc st.connectionHealth profileID with
  | none => none
  | some h => some h

/-- Embeds `HealthChecker.RemoveConnection`: drop the profile's health
record. -/
def removeConnection (st : HealthCheckerState) (profileID : String) :
    HealthCheckerState :=
  { st with connectionHealth := removeAssoc st.connectionHealth profileID }
/-! ## Concrete instances used to witness the theorems -/

/-- A plain profile without OTP or split tunneling. -/
def demoProfile : Profile :=
  { id := "p1"
    name := "Office"
    configPath := "/etc/vpn/office.ovpn"
    username := "alice"
    requiresOTP := false
    splitTunnelEnabled := false
    splitTunnelMode := ""
    splitTunnelRoutes := [] }

/-- The same profile with the OTP-required flag set. -/
def demoOTPProfile : Profile :=
  { demoProfile with requiresOTP := true }

/-- The include-mode split-tunnel profile of the end-to-end scenario,
parametric in the config-file path. -/
def splitProfileWith (configPath : String) : Profile :=
  { id := "p2"
    name := "Split"
    configPath := configPath
    username := "bob"
    requiresOTP := false
    splitTunnelEnabled := true
    splitTunnelMode := "include"
    splitTunnelRoutes := ["10.0.0.0/8"] }

/-- A connection in `connecting` state, as `Manager.Connect` creates it. -/
def demoConnectingConn : Connection :=
  { profile := demoProfile
    status := .connecting
    lastError := ""
    authFailedCalled := false
    stopChanClosed := false
    hasAuthFailedCallback := false }

/-- An established connection. -/
def demoConnectedConn : Connection :=
  { demoConnectingConn with status := .connected }

/-- A connection already disconnected. -/
def demoDisconnectedConn : Connection :=
  { demoConnectingConn with status := .disconnected }

/-- A connecting connection with a registered auth-failed callback. -/
def demoMonitorConn : Connection :=
  { demoConnectingConn with hasAuthFailedCallback := true }

/-- The same monitored connection for a profile that requires OTP. -/
def demoOTPConn : Connection :=
  { demoMonitorConn with profile := demoOTPProfile }

/-- A simulated subprocess output stream with two AUTH_FAILED lines. -/
def demoAuthLines : List String :=
  ["SIGUSR1[soft,auth-failure] received, process restarting",
   "AUTH: Received control message: AUTH_FAILED",
   "AUTH: Received control message: AUTH_FAILED"]

/-- A manager state whose registry holds one connecting entry. -/
def demoRegistryState : ManagerState :=
  { profiles := [demoProfile]
    connections := [("p1", demoConnectingConn)] }

/-- The defaults of `DefaultHealthConfig`. -/
def demoHealthConfig : HealthConfig :=
  { checkInterval := 30
    failureThreshold := 3
    autoReconnect := true
    reconnectDelay := 5
    maxReconnectAttempts := 5
    testHosts := ["8.8.8.8:53", "1.1.1.1:53", "208.67.222.222:53"] }

/-- A health record two consecutive failures deep. -/
def demoHealthRecord : ConnectionHealth :=
  { profileID := "p1"
    state := .degraded
    lastCheck := 5
    lastSuccess := 2
    consecutiveFails := 2
    reconnectAttempts := 1
    latency := 30 }

/-- A checker state tracking that record. -/
def demoHealthState : HealthCheckerState :=
  { config := demoHealthConfig
    running := true
    connectionHealth := [("p1", demoHealthRecord)] }

/-! ## Association-list lemmas -/

theorem lookupAssoc_insertAssoc {α : Type} (l : List (String × α)) (k : String) (v : α) :
    lookupAssoc (insertAssoc l k v) k = some v := by
  induction l with
  | nil => simp [insertAssoc, lookupAssoc]
  | cons kv rest ih =>
    obtain ⟨k', v'⟩ := kv
    by_cases h : k' = k
    · simp [insertAssoc, h, lookupAssoc]
    · simp [insertAssoc, h, lookupAssoc, ih]

theorem lookupAssoc_removeAssoc {α : Type} (l : List (String × α)) (k : String) :
    lookupAssoc (removeAssoc l k) k = none := by
  induction l with
  | nil => rfl
  | cons kv rest ih =>
    obtain ⟨k', v'⟩ := kv
    by_cases h : k' = k
    · simpa [removeAssoc, List.filter_cons, h] using ih
    · simpa [removeAssoc, List.filter_cons, h, lookupAssoc] using ih

theorem mem_removeAssoc_ne {α : Type} (l : List (String × α)) (k : String) :
    ∀ kv ∈ removeAssoc l k, kv.1 ≠ k := by
  intro kv hm
  have := List.of_mem_filter hm
  simpa using this

/-! ## C3: route normalization -/

/-- C3: `normalizeNetworkRoute` rewrites `192.168.1.1/24` to the network
address `192.168.1.0/24` implied by the mask, turns the bare IP
`10.0.0.5` into `10.0.0.5/32`, and collapses the empty string and every
unparseable input (`invalid` concretely; in general any input rejected by
both the CIDR and the bare-IP parser) to the empty string. -/
theorem normalizeNetworkRoute_spec :
    normalizeNetworkRoute "192.168.1.1/24" = "192.168.1.0/24" ∧
    normalizeNetworkRoute "10.0.0.5" = "10.0.0.5/32" ∧
    normalizeNetworkRoute "" = "" ∧
    normalizeNetworkRoute "invalid" = "" ∧
    (∀ route : String,
      goParseCIDR (goTrimSpace route) = none →
      parseIPv4 (goTrimSpace route) = none →
      normalizeNetworkRoute route = "") := by
  refine ⟨by decide, by decide, by decide, by decide, ?_⟩
  intro route h1 h2
  unfold normalizeNetworkRoute
  by_cases he : goTrimSpace route = ""
  · simp [he]
  · by_cases hc : strContains (goTrimSpace route) "/" = true
    · simp [he, hc, h1]
    · simp [he, hc, h2]

/-- Witness for C3's general unparseable clause at the concrete input
`300.1.2.3/24` (an out-of-range octet). -/
theorem normalizeNetworkRoute_spec_witness :
    goParseCIDR (goTrimSpace "300.1.2.3/24") = none ∧
    parseIPv4 (goTrimSpace "300.1.2.3/24") = none ∧
    normalizeNetworkRoute "300.1.2.3/24" = "" :=
  ⟨by decide, by decide,
   normalizeNetworkRoute_spec.2.2.2.2 "300.1.2.3/24" (by decide) (by decide)⟩

/-! ## C4: route parsing for OpenVPN flags -/

/-- C4: `parseRouteForOpenVPN` maps `192.168.1.0/24` to
`("192.168.1.0", "255.255.255.0")`, the bare IP `8.8.8.8` to
`("8.8.8.8", "255.255.255.255")`, corrects `192.168.1.1/24` to the
network address `192.168.1.0` implied by the mask, renders for every
successfully parsed CIDR input the parser's network address together with
the dotted-decimal netmask, and collapses every input rejected by both
parsers to `("", "")` instead of failing. -/
theorem parseRouteForOpenVPN_spec :
    parseRouteForOpenVPN "192.168.1.0/24" = ("192.168.1.0", "255.255.255.0") ∧
    parseRouteForOpenVPN "8.8.8.8" = ("8.8.8.8", "255.255.255.255") ∧
    parseRouteForOpenVPN "192.168.1.1/24" = ("192.168.1.0", "255.255.255.0") ∧
    (∀ (route : String) (q : Nat × Nat × Nat × Nat) (ones : Nat),
      goParseCIDR (goTrimSpace route) = some (q, ones) →
      strContains (goTrimSpace route) "/" = true →
      parseRouteForOpenVPN route = (formatIPv4 q, formatIPv4 (netmaskQuadOf ones))) ∧
    (∀ route : String,
      goParseCIDR (goTrimSpace route) = none →
      parseIPv4 (goTrimSpace route) = none →
      parseRouteForOpenVPN route = ("", "")) := by
  refine ⟨by decide, by decide, by decide, ?_, ?_⟩
  · intro route q ones hp hc
    unfold parseRouteForOpenVPN
    by_cases he : goTrimSpace route = ""
    · rw [he] at hc
      exact absurd hc (by decide)
    · simp [he, hc, hp]
  · intro route h1 h2
    unfold parseRouteForOpenVPN
    by_cases he : goTrimSpace route = ""
    · simp [he]
    · by_cases hc : strContains (goTrimSpace route) "/" = true
      · simp [he, hc, h1]
      · simp [he, hc, h2]

/-- Witness for C4's general clauses at `172.16.5.9/12` (whose network
address is `172.16.0.0`) and the unparseable input `foo`. -/
theorem parseRouteForOpenVPN_spec_witness :
    goParseCIDR (goTrimSpace "172.16.5.9/12") = some ((172, 16, 0, 0), 12) ∧
    strContains (goTrimSpace "172.16.5.9/12") "/" = true ∧
    parseRouteForOpenVPN "172.16.5.9/12" =
      (formatIPv4 (172, 16, 0, 0), formatIPv4 (netmaskQuadOf 12)) ∧
    goParseCIDR (goTrimSpace "foo") = none ∧
    parseIPv4 (goTrimSpace "foo") = none ∧
    parseRouteForOpenVPN "foo" = ("", "") :=
  ⟨by decide, by decide,
   parseRouteForOpenVPN_spec.2.2.2.1 "172.16.5.9/12" (172, 16, 0, 0) 12
     (by decide) (by decide),
   by decide, by decide,
   parseRouteForOpenVPN_spec.2.2.2.2 "foo" (by decide) (by decide)⟩
/-! ## C2: double connect is rejected -/

/-- C2: calling `Manager.Connect` while the registry already holds an
entry for the profile in `connecting` or `connected` state returns
`alreadyConnected`, leaves the manager state (registry included)
untouched, and spawns no supervisory goroutine/subprocess. -/
theorem managerConnect_already_connected (st : ManagerState)
    (profileID username password : String) (c : Connection)
    (hc : lookupAssoc st.connections profileID = some c)
    (hs : c.status = ConnectionStatus.connecting ∨ c.status = ConnectionStatus.connected) :
    managerConnect st profileID username password =
      { state := st, err := some VpnError.alreadyConnected, spawned := false } := by
  unfold managerConnect
  rcases hs with h | h <;> simp [hc, h]

/-- Witness for C2: the demo registry already holds `p1` in `connecting`
state, so a second connect is rejected without touching the state. -/
theorem managerConnect_already_connected_witness :
    lookupAssoc demoRegistryState.connections "p1" = some demoConnectingConn ∧
    demoConnectingConn.status = ConnectionStatus.connecting ∧
    managerConnect demoRegistryState "p1" "alice" "secret" =
      { state := demoRegistryState, err := some VpnError.alreadyConnected
        spawned := false } :=
  ⟨by decide, by decide,
   managerConnect_already_connected demoRegistryState "p1" "alice" "secret"
     demoConnectingConn (by decide) (Or.inl (by decide))⟩

/-! ## C10: errors from Connect never mutate the registry -/

/-- C10: whenever `Manager.Connect` returns an error (already connected
or failed profile lookup), the whole manager state — in particular the
connection registry — is unchanged and no supervisory task is spawned. -/
theorem managerConnect_error_no_mutation (st : ManagerState)
    (profileID username password : String) (e : VpnError)
    (he : (managerConnect st profileID username password).err = some e) :
    (managerConnect st profileID username password).state = st ∧
    (managerConnect st profileID username password).spawned = false := by
  unfold managerConnect at he ⊢
  cases hl : lookupAssoc st.connections profileID with
  | some c =>
    simp only [hl] at he ⊢
    by_cases hb : (c.status == ConnectionStatus.connected ||
        c.status == ConnectionStatus.connecting) = true
    · simp [hb]
    · simp only [hb, if_neg, Bool.false_eq_true, if_false] at he ⊢
      cases hp : profileGet st.profiles profileID with
      | none => simp [hp]
      | some p => simp [hp] at he
  | none =>
    simp only [hl] at he ⊢
    cases hp : profileGet st.profiles profileID with
    | none => simp [hp]
    | some p => simp [hp] at he

/-- Witness for C10 at a concrete erroring call: an unknown profile ID. -/
theorem managerConnect_error_no_mutation_witness :
    (managerConnect demoRegistryState "ghost" "u" "p").err =
      some VpnError.profileNotFound ∧
    (managerConnect demoRegistryState "ghost" "u" "p").state = demoRegistryState ∧
    (managerConnect demoRegistryState "ghost" "u" "p").spawned = false :=
  ⟨by decide,
   (managerConnect_error_no_mutation demoRegistryState "ghost" "u" "p"
     VpnError.profileNotFound (by decide)).1,
   (managerConnect_error_no_mutation demoRegistryState "ghost" "u" "p"
     VpnError.profileNotFound (by decide)).2⟩

/-! ## C7: disconnect semantics -/

/-- C7: `Manager.Disconnect` on an unregistered profile returns
`notConnected` and changes nothing; on a registered connection it ends
with the connection in final status `disconnected` (stop channel closed)
and with the registry entry removed, so the profile no longer has an
entry behind `ListConnections`. -/
theorem managerDisconnect_spec (st : ManagerState) (profileID : String) :
    (lookupAssoc st.connections profileID = none →
      managerDisconnect st profileID =
        { state := st, err := some VpnError.notConnected, final := none }) ∧
    (∀ c, lookupAssoc st.connections profileID = some c →
      managerDisconnect st profileID =
        { state := { st with connections := removeAssoc st.connections profileID }
          err := none
          final := some { c with status := ConnectionStatus.disconnected
                                 stopChanClosed := true } } ∧
      lookupAssoc (managerDisconnect st profileID).state.connections profileID = none ∧
      (∀ kv ∈ (managerDisconnect st profileID).state.connections, kv.1 ≠ profileID) ∧
      managerListConnections (managerDisconnect st profileID).state =
        (removeAssoc st.connections profileID).map Prod.snd) := by
  constructor
  · intro h
    unfold managerDisconnect
    simp [h]
  · intro c h
    have hd : managerDisconnect st profileID =
        { state := { st with connections := removeAssoc st.connections profileID }
          err := none
          final := some { c with status := ConnectionStatus.disconnected
                                 stopChanClosed := true } } := by
      unfold managerDisconnect
      simp [h]
    refine ⟨hd, ?_, ?_, ?_⟩
    · rw [hd]
      exact lookupAssoc_removeAssoc st.connections profileID
    · rw [hd]
      exact mem_removeAssoc_ne st.connections profileID
    · rw [hd]
      rfl

/-- Witness for C7: disconnecting the registered `p1` and the
unregistered `missing` in the demo registry. -/
theorem managerDisconnect_spec_witness :
    lookupAssoc demoRegistryState.connections "p1" = some demoConnectingConn ∧
    managerDisconnect demoRegistryState "p1" =
      { state := { demoRegistryState with
                     connections := removeAssoc demoRegistryState.connections "p1" }
        err := none
        final := some { demoConnectingConn with
                          status := ConnectionStatus.disconnected
                          stopChanClosed := true } } ∧
    lookupAssoc demoRegistryState.connections "missing" = none ∧
    managerDisconnect demoRegistryState "missing" =
      { state := demoRegistryState, err := some VpnError.notConnected, final := none } :=
  ⟨by decide,
   ((managerDisconnect_spec demoRegistryState "p1").2 demoConnectingConn (by decide)).1,
   by decide,
   (managerDisconnect_spec demoRegistryState "missing").1 (by decide)⟩

/-! ## C6: status on process exit -/

/-- C6 counterexample: with the connection still `connected` and the
subprocess exiting cleanly (`Wait` returned nil), the code sets
`disconnected`, not `error` — refuting the claim that a Connecting/
Connected status at exit always becomes `Error` with an exit error. -/
theorem handleProcessExit_counterexample :
    demoConnectedConn.status = ConnectionStatus.connected ∧
    (handleProcessExit demoConnectedConn none).status = ConnectionStatus.disconnected ∧
    ¬ (handleProcessExit demoConnectedConn none).status = ConnectionStatus.error := by
  decide

/-- C6 (amended): when the subprocess exits while the status is still
`connecting`/`connected`, a non-nil exit error yields `error` with the
exit error recorded as the last-error text, and a nil (clean) exit yields
`disconnected`; any other status at exit time is left unchanged. -/
theorem handleProcessExit_spec (c : Connection) (exitErr : Option String) :
    ((c.status = ConnectionStatus.connecting ∨ c.status = ConnectionStatus.connected) →
      (∀ e, exitErr = some e →
        handleProcessExit c exitErr =
          { c with status := ConnectionStatus.error, lastError := e }) ∧
      (exitErr = none →
        handleProcessExit c exitErr = { c with status := ConnectionStatus.disconnected })) ∧
    (¬ c.status = ConnectionStatus.connecting → ¬ c.status = ConnectionStatus.connected →
      handleProcessExit c exitErr = c) := by
  constructor
  · intro hs
    constructor
    · intro e he
      subst he
      unfold handleProcessExit
      rw [if_pos hs]
    · intro he
      subst he
      unfold handleProcessExit
      rw [if_pos hs]
  · intro h1 h2
    unfold handleProcessExit
    rw [if_neg (by rintro (h | h) <;> [exact h1 h; exact h2 h])]

/-- Witness for C6's amended statement: an errored exit from `connected`
records the error text, and an exit after an explicit disconnect leaves
the status alone. -/
theorem handleProcessExit_spec_witness :
    handleProcessExit demoConnectedConn (some "signal: killed") =
      { demoConnectedConn with status := ConnectionStatus.error
                               lastError := "signal: killed" } ∧
    handleProcessExit demoDisconnectedConn none = demoDisconnectedConn :=
  ⟨((handleProcessExit_spec demoConnectedConn (some "signal: killed")).1
      (Or.inr (by decide))).1 "signal: killed" rfl,
   (handleProcessExit_spec demoDisconnectedConn none).2 (by decide) (by decide)⟩

/-! ## C8: classic-mode split-tunnel arguments -/

/-- C8: for a profile with split tunneling enabled in `include` mode and
routes `["10.0.0.0/8"]`, the classic-mode argument list is exactly the
base flags followed by `--route-nopull`, the pull-filter ignoring
`redirect-gateway`, and the single pair `--route 10.0.0.0 255.0.0.0`
computed by the route parser — in particular it contains each of those
markers. -/
theorem buildClassicOpenVPNArgs_split (configPath credFile : String) :
    buildClassicOpenVPNArgs credFile (splitProfileWith configPath) =
      ["--config", configPath, "--auth-user-pass", credFile, "--verb", "3",
       "--route-nopull", "--pull-filter", "ignore", "redirect-gateway",
       "--route", "10.0.0.0", "255.0.0.0"] ∧
    "--route-nopull" ∈ buildClassicOpenVPNArgs credFile (splitProfileWith configPath) ∧
    List.IsInfix ["--pull-filter", "ignore", "redirect-gateway"]
      (buildClassicOpenVPNArgs credFile (splitProfileWith configPath)) ∧
    List.IsInfix ["--route", "10.0.0.0", "255.0.0.0"]
      (buildClassicOpenVPNArgs credFile (splitProfileWith configPath)) := by
  have h : buildClassicOpenVPNArgs credFile (splitProfileWith configPath) =
      ["--config", configPath, "--auth-user-pass", credFile, "--verb", "3",
       "--route-nopull", "--pull-filter", "ignore", "redirect-gateway",
       "--route", "10.0.0.0", "255.0.0.0"] := rfl
  refine ⟨h, ?_, ?_, ?_⟩
  · rw [h]
    exact .tail _ (.tail _ (.tail _ (.tail _ (.tail _ (.tail _ (.head _))))))
  · rw [h]
    exact ⟨["--config", configPath, "--auth-user-pass", credFile, "--verb", "3",
            "--route-nopull"],
           ["--route", "10.0.0.0", "255.0.0.0"], rfl⟩
  · rw [h]
    exact ⟨["--config", configPath, "--auth-user-pass", credFile, "--verb", "3",
            "--route-nopull", "--pull-filter", "ignore", "redirect-gateway"],
           [], by simp⟩
/-! ## Lemmas about the output classifier -/

theorem stageEstablished_spec (line : String) (s : Connection × List Bool) :
    (stageEstablished line s).1.profile = s.1.profile ∧
    (stageEstablished line s).1.hasAuthFailedCallback = s.1.hasAuthFailedCallback ∧
    (stageEstablished line s).1.authFailedCalled = s.1.authFailedCalled ∧
    (stageEstablished line s).2 = s.2 := by
  unfold stageEstablished
  split <;> simp

theorem stageAuthFailed_spec (line : String) (s : Connection × List Bool) :
    (stageAuthFailed line s).1.profile = s.1.profile ∧
    (stageAuthFailed line s).1.hasAuthFailedCallback = s.1.hasAuthFailedCallback ∧
    (stageAuthFailed line s).1.authFailedCalled =
      (strContains line "AUTH_FAILED" || s.1.authFailedCalled) ∧
    (stageAuthFailed line s).2 =
      (if strContains line "AUTH_FAILED" && s.1.hasAuthFailedCallback &&
          !s.1.authFailedCalled && !s.1.profile.requiresOTP
       then s.2 ++ [true] else s.2) := by
  unfold stageAuthFailed
  by_cases h1 : strContains line "AUTH_FAILED"
  · by_cases h2 : (s.1.hasAuthFailedCallback && !s.1.authFailedCalled &&
        !s.1.profile.requiresOTP) = true
    · simp [h1, h2]
    · simp [h1, h2]
  · simp [h1]

theorem stageChallenge_spec (line : String) (s : Connection × List Bool) :
    (stageChallenge line s).1.profile = s.1.profile ∧
    (stageChallenge line s).1.hasAuthFailedCallback = s.1.hasAuthFailedCallback ∧
    (stageChallenge line s).1.authFailedCalled =
      ((strContains line "AUTH:CRV1" || strContains line "CHALLENGE") ||
        s.1.authFailedCalled) ∧
    (stageChallenge line s).2 =
      (if (strContains line "AUTH:CRV1" || strContains line "CHALLENGE") &&
          s.1.hasAuthFailedCallback && !s.1.authFailedCalled &&
          !s.1.profile.requiresOTP
       then s.2 ++ [true] else s.2) := by
  unfold stageChallenge
  by_cases h1 : (strContains line "AUTH:CRV1" || strContains line "CHALLENGE") = true
  · by_cases h2 : (s.1.hasAuthFailedCallback && !s.1.authFailedCalled &&
        !s.1.profile.requiresOTP) = true
    · simp [h1, h2]
    · simp [h1, h2]
  · simp [h1]

theorem processOutputLine_profile (c : Connection) (line : String) :
    (processOutputLine c line).1.profile = c.profile := by
  unfold processOutputLine
  rw [(stageChallenge_spec _ _).1, (stageAuthFailed_spec _ _).1,
    (stageEstablished_spec _ _).1]

theorem processOutputLine_cb (c : Connection) (line : String) :
    (processOutputLine c line).1.hasAuthFailedCallback = c.hasAuthFailedCallback := by
  unfold processOutputLine
  rw [(stageChallenge_spec _ _).2.1, (stageAuthFailed_spec _ _).2.1,
    (stageEstablished_spec _ _).2.1]

theorem processOutputLine_latch (c : Connection) (line : String) :
    (processOutputLine c line).1.authFailedCalled =
      (triggerLine line || c.authFailedCalled) := by
  unfold processOutputLine triggerLine
  rw [(stageChallenge_spec _ _).2.2.1, (stageAuthFailed_spec _ _).2.2.1,
    (stageEstablished_spec _ _).2.2.1]
  cases hAF : strContains line "AUTH_FAILED" <;>
    cases hCRV : strContains line "AUTH:CRV1" <;>
    cases hCH : strContains line "CHALLENGE" <;>
    cases hL : (c, ([] : List Bool)).1.authFailedCalled <;> rfl

theorem processOutputLine_events (c : Connection) (line : String) :
    (processOutputLine c line).2 =
      (if triggerLine line && c.hasAuthFailedCallback && !c.authFailedCalled &&
          !c.profile.requiresOTP
       then [true] else []) := by
  unfold processOutputLine triggerLine
  rw [(stageChallenge_spec _ _).2.2.2]
  rw [(stageAuthFailed_spec _ _).2.1, (stageAuthFailed_spec _ _).2.2.1,
    (stageAuthFailed_spec _ _).2.2.2, (stageAuthFailed_spec _ _).1]
  rw [(stageEstablished_spec _ _).2.1, (stageEstablished_spec _ _).2.2.1,
    (stageEstablished_spec _ _).2.2.2, (stageEstablished_spec _ _).1]
  cases hAF : strContains line "AUTH_FAILED" <;>
    cases hCRV : strContains line "AUTH:CRV1" <;>
    cases hCH : strContains line "CHALLENGE" <;>
    cases hcb : c.hasAuthFailedCallback <;>
    cases hL : c.authFailedCalled <;>
    cases hotp : c.profile.requiresOTP <;>
    simp_all

theorem monitorOutput_acc (ls : List String) (c : Connection) (acc : List Bool) :
    List.foldl (fun s line =>
      let r := processOutputLine s.1 line
      (r.1, s.2 ++ r.2)) (c, acc) ls =
    ((monitorOutput c ls).1, acc ++ (monitorOutput c ls).2) := by
  induction ls generalizing c acc with
  | nil => simp [monitorOutput]
  | cons l ls ih =>
    simp only [monitorOutput, List.foldl_cons]
    rw [ih (processOutputLine c l).1 (acc ++ (processOutputLine c l).2),
      ih (processOutputLine c l).1 ([] ++ (processOutputLine c l).2)]
    simp

theorem monitorOutput_cons (c : Connection) (l : String) (ls : List String) :
    monitorOutput c (l :: ls) =
      ((monitorOutput (processOutputLine c l).1 ls).1,
       (processOutputLine c l).2 ++ (monitorOutput (processOutputLine c l).1 ls).2) := by
  have h := monitorOutput_acc ls (processOutputLine c l).1 (processOutputLine c l).2
  simp only [monitorOutput, List.foldl_cons]
  simpa using h

theorem monitorOutput_latched (c : Connection) (ls : List String)
    (h : c.authFailedCalled = true) :
    (monitorOutput c ls).2 = [] ∧ (monitorOutput c ls).1.authFailedCalled = true := by
  induction ls generalizing c with
  | nil => exact ⟨rfl, h⟩
  | cons l ls ih =>
    rw [monitorOutput_cons]
    have hl : (processOutputLine c l).1.authFailedCalled = true := by
      rw [processOutputLine_latch, h, Bool.or_true]
    have he : (processOutputLine c l).2 = [] := by
      rw [processOutputLine_events, h]
      simp
    obtain ⟨ih1, ih2⟩ := ih (processOutputLine c l).1 hl
    simp [he, ih1, ih2]

theorem monitorOutput_length_le_one (c : Connection) (ls : List String) :
    (monitorOutput c ls).2.length ≤ 1 := by
  induction ls generalizing c with
  | nil => simp [monitorOutput]
  | cons l ls ih =>
    rw [monitorOutput_cons]
    by_cases hb : (triggerLine l && c.hasAuthFailedCallback &&
        !c.authFailedCalled && !c.profile.requiresOTP) = true
    · have he : (processOutputLine c l).2 = [true] := by
        rw [processOutputLine_events, if_pos hb]
      have ht : triggerLine l = true := by
        simp only [Bool.and_eq_true] at hb
        exact hb.1.1.1
      have hl : (processOutputLine c l).1.authFailedCalled = true := by
        rw [processOutputLine_latch, ht, Bool.true_or]
      obtain ⟨hrest, _⟩ := monitorOutput_latched (processOutputLine c l).1 ls hl
      simp [he, hrest]
    · have he : (processOutputLine c l).2 = [] := by
        rw [processOutputLine_events, if_neg hb]
      simpa [he] using ih (processOutputLine c l).1

theorem monitorOutput_fires_once (c : Connection) (ls : List String)
    (hlatch : c.authFailedCalled = false) (hcb : c.hasAuthFailedCallback = true)
    (hotp : c.profile.requiresOTP = false)
    (hex : ∃ l ∈ ls, strContains l "AUTH_FAILED" = true) :
    (monitorOutput c ls).2 = [true] := by
  induction ls generalizing c with
  | nil =>
    obtain ⟨l, hl, _⟩ := hex
    exact absurd hl (List.not_mem_nil l)
  | cons l ls ih =>
    rw [monitorOutput_cons]
    by_cases ht : triggerLine l = true
    · have he : (processOutputLine c l).2 = [true] := by
        rw [processOutputLine_events, hlatch, hcb, hotp, ht]
        simp
      have hl2 : (processOutputLine c l).1.authFailedCalled = true := by
        rw [processOutputLine_latch, ht, Bool.true_or]
      obtain ⟨hrest, _⟩ := monitorOutput_latched (processOutputLine c l).1 ls hl2
      simp [he, hrest]
    · have htf : triggerLine l = false := by
        cases hx : triggerLine l
        · rfl
        · exact absurd hx ht
      have he : (processOutputLine c l).2 = [] := by
        rw [processOutputLine_events, htf]
        simp
      have hl2 : (processOutputLine c l).1.authFailedCalled = false := by
        rw [processOutputLine_latch, hlatch, htf, Bool.or_false]
      have hcb2 : (processOutputLine c l).1.hasAuthFailedCallback = true := by
        rw [processOutputLine_cb]
        exact hcb
      have hotp2 : (processOutputLine c l).1.profile.requiresOTP = false := by
        rw [processOutputLine_profile]
        exact hotp
      have hex2 : ∃ l2 ∈ ls, strContains l2 "AUTH_FAILED" = true := by
        obtain ⟨l0, hmem, hAF⟩ := hex
        rcases List.mem_cons.mp hmem with heq | hmem2
        · exfalso
          apply ht
          subst heq
          unfold triggerLine
          rw [hAF]
          simp
        · exact ⟨l0, hmem2, hAF⟩
      simpa [he] using ih (processOutputLine c l).1 hl2 hcb2 hotp2 hex2

theorem monitorOutput_otp_silent (c : Connection) (ls : List String)
    (hotp : c.profile.requiresOTP = true) :
    (monitorOutput c ls).2 = [] := by
  induction ls generalizing c with
  | nil => rfl
  | cons l ls ih =>
    rw [monitorOutput_cons]
    have he : (processOutputLine c l).2 = [] := by
      rw [processOutputLine_events, hotp]
      simp
    have hp : (processOutputLine c l).1.profile.requiresOTP = true := by
      rw [processOutputLine_profile]
      exact hotp
    simp [he, ih (processOutputLine c l).1 hp]

/-! ## C1: at-most-once auth-failed callback -/

/-- C1: over any output stream the auth-failed callback fires at most
once; with the callback registered, the latch clear and a profile that
does not require OTP, a stream containing an `AUTH_FAILED` line produces
exactly one invocation, with `needsOTP = true`; with `requiresOTP` set,
no invocation ever happens. -/
theorem monitorOutput_authFailed_once (c : Connection) (lines : List String) :
    (monitorOutput c lines).2.length ≤ 1 ∧
    (c.authFailedCalled = false → c.hasAuthFailedCallback = true →
      c.profile.requiresOTP = false →
      (∃ l ∈ lines, strContains l "AUTH_FAILED" = true) →
      (monitorOutput c lines).2 = [true]) ∧
    (c.profile.requiresOTP = true → (monitorOutput c lines).2 = []) :=
  ⟨monitorOutput_length_le_one c lines,
   fun h1 h2 h3 h4 => monitorOutput_fires_once c lines h1 h2 h3 h4,
   fun h => monitorOutput_otp_silent c lines h⟩

/-- Witness for C1: a stream with two `AUTH_FAILED` lines yields exactly
one `needsOTP = true` invocation for a non-OTP profile and none for an
OTP-requiring profile. -/
theorem monitorOutput_authFailed_once_witness :
    demoMonitorConn.authFailedCalled = false ∧
    demoMonitorConn.hasAuthFailedCallback = true ∧
    demoMonitorConn.profile.requiresOTP = false ∧
    (∃ l ∈ demoAuthLines, strContains l "AUTH_FAILED" = true) ∧
    (monitorOutput demoMonitorConn demoAuthLines).2 = [true] ∧
    demoOTPConn.profile.requiresOTP = true ∧
    (monitorOutput demoOTPConn demoAuthLines).2 = [] :=
  ⟨by decide, by decide, by decide,
   ⟨"AUTH: Received control message: AUTH_FAILED", by decide, by decide⟩,
   (monitorOutput_authFailed_once demoMonitorConn demoAuthLines).2.1
     (by decide) (by decide) (by decide)
     ⟨"AUTH: Received control message: AUTH_FAILED", by decide, by decide⟩,
   by decide,
   (monitorOutput_authFailed_once demoOTPConn demoAuthLines).2.2 (by decide)⟩

/-! ## C5: health classification on probe outcomes -/

/-- C5: for a tracked record, a failed probe increments the
consecutive-failure count and classifies `degraded` while the new count
is below the failure threshold and `unhealthy` once it is at or above
it; a successful probe resets the consecutive-failure and
reconnect-attempt counters to 0 and classifies `healthy`. -/
theorem healthCheckConnection_transitions (st : HealthCheckerState)
    (profileID : String) (now lat : Nat) (h : ConnectionHealth)
    (hh : lookupAssoc st.connectionHealth profileID = some h) :
    (∃ hf, lookupAssoc
        (healthCheckConnection st profileID now none).state.connectionHealth
        profileID = some hf ∧
      hf.consecutiveFails = h.consecutiveFails + 1 ∧
      (h.consecutiveFails + 1 < st.config.failureThreshold →
        hf.state = HealthState.degraded) ∧
      (st.config.failureThreshold ≤ h.consecutiveFails + 1 →
        hf.state = HealthState.unhealthy)) ∧
    (∃ hs2, lookupAssoc
        (healthCheckConnection st profileID now (some lat)).state.connectionHealth
        profileID = some hs2 ∧
      hs2.consecutiveFails = 0 ∧ hs2.reconnectAttempts = 0 ∧
      hs2.state = HealthState.healthy) := by
  constructor
  · have hfail : lookupAssoc
        (healthCheckConnection st profileID now none).state.connectionHealth
        profileID = some
      { h with
        lastCheck := now
        consecutiveFails := h.consecutiveFails + 1
        latency := 0
        state := if st.config.failureThreshold ≤ h.consecutiveFails + 1
                 then HealthState.unhealthy else HealthState.degraded } := by
      unfold healthCheckConnection
      simp only [hh]
      exact lookupAssoc_insertAssoc _ _ _
    refine ⟨_, hfail, rfl, ?_, ?_⟩
    · intro hlt
      have hn : ¬ st.config.failureThreshold ≤ h.consecutiveFails + 1 :=
        not_le.mpr hlt
      simp [hn]
    · intro hge
      simp [hge]
  · have hok : lookupAssoc
        (healthCheckConnection st profileID now (some lat)).state.connectionHealth
        profileID = some
      { h with
        lastCheck := now
        lastSuccess := now
        latency := lat
        consecutiveFails := 0
        reconnectAttempts := 0
        state := HealthState.healthy } := by
      unfold healthCheckConnection
      simp only [hh]
      exact lookupAssoc_insertAssoc _ _ _
    exact ⟨_, hok, rfl, rfl, rfl⟩

/-- Witness for C5: at threshold 3 a third consecutive failure turns the
demo record `unhealthy`, and a success resets both counters. -/
theorem healthCheckConnection_transitions_witness :
    (∃ hf, lookupAssoc
        (healthCheckConnection demoHealthState "p1" 7 none).state.connectionHealth
        "p1" = some hf ∧
      hf.consecutiveFails = demoHealthRecord.consecutiveFails + 1 ∧
      hf.state = HealthState.unhealthy) ∧
    (∃ hs2, lookupAssoc
        (healthCheckConnection demoHealthState "p1" 7 (some 42)).state.connectionHealth
        "p1" = some hs2 ∧
      hs2.consecutiveFails = 0 ∧ hs2.reconnectAttempts = 0 ∧
      hs2.state = HealthState.healthy) := by
  obtain ⟨⟨hf, hfl, hff, hfd, hfu⟩, hs2, hsl, hsf, hsr, hss⟩ :=
    healthCheckConnection_transitions demoHealthState "p1" 7 42 demoHealthRecord
      (by decide)
  exact ⟨⟨hf, hfl, hff, hfu (by decide)⟩, ⟨hs2, hsl, hsf, hsr, hss⟩⟩

/-! ## C9: health lookups and value-copy snapshots -/

/-- C9: `GetHealth` on an untracked profile reports not-found; after
`RemoveConnection` the profile's health lookup reports not-found; and a
returned record is a value copy — mutating the copy leaves the stored
record intact (in particular the store never holds the mutated copy). -/
theorem getHealth_spec :
    (∀ (st : HealthCheckerState) (profileID : String),
      lookupAssoc st.connectionHealth profileID = none →
      getHealth st profileID = none) ∧
    (∀ (st : HealthCheckerState) (profileID : String),
      getHealth (removeConnection st profileID) profileID = none) ∧
    (∀ (st : HealthCheckerState) (profileID : String) (h : ConnectionHealth),
      getHealth st profileID = some h →
      ∀ f : ConnectionHealth → ConnectionHealth, f h ≠ h →
        lookupAssoc st.connectionHealth profileID = some h ∧
        lookupAssoc st.connectionHealth profileID ≠ some (f h)) := by
  refine ⟨?_, ?_, ?_⟩
  · intro st pid hnone
    unfold getHealth
    simp [hnone]
  · intro st pid
    unfold getHealth removeConnection
    simp [lookupAssoc_removeAssoc]
  · intro st pid h hget f hf
    have hl : lookupAssoc st.connectionHealth pid = some h := by
      unfold getHealth at hget
      cases hx : lookupAssoc st.connectionHealth pid with
      | none =>
        rw [hx] at hget
        exact absurd hget (by simp)
      | some h2 =>
        rw [hx] at hget
        injection hget with he
        rw [he]
    refine ⟨hl, ?_⟩
    rw [hl]
    intro hcontra
    injection hcontra with h2
    exact hf h2.symm

/-- Witness for C9 at the demo checker state. -/
theorem getHealth_spec_witness :
    getHealth demoHealthState "ghost" = none ∧
    getHealth (removeConnection demoHealthState "p1") "p1" = none ∧
    getHealth demoHealthState "p1" = some demoHealthRecord ∧
    lookupAssoc demoHealthState.connectionHealth "p1" = some demoHealthRecord ∧
    lookupAssoc demoHealthState.connectionHealth "p1" ≠
      some { demoHealthRecord with consecutiveFails := 99 } :=
  ⟨getHealth_spec.1 demoHealthState "ghost" (by decide),
   getHealth_spec.2.1 demoHealthState "p1",
   by decide,
   (getHealth_spec.2.2 demoHealthState "p1" demoHealthRecord (by decide)
     (fun r => { r with consecutiveFails := 99 }) (by decide)).1,
   (getHealth_spec.2.2 demoHealthState "p1" demoHealthRecord (by decide)
     (fun r => { r with consecutiveFails := 99 }) (by decide)).2⟩
